import Mathlib

/-!
# Verification of the CVD dataset-preparation pipeline

Shallow embedding of the data-loading / normalization / combination utilities
of the Heart-Disease-Prediction repository (`src/utils/data_loading.py` and
`src/helpers.py`), together with theorems settling the spec's claims about
them.

Modelling conventions:
* A pandas `DataFrame` is modelled as a `Table`: an ordered list of column
  names, a row index (list of labels), and an ordered list of rows, each row
  an ordered list of cells.
* A cell is missing (`NaN`), a string, or a number (modelled as a rational;
  the claims only involve exact small numerals, so floating-point rounding is
  irrelevant to every statement below).
* Python aliasing/mutation is made explicit: an operation that in the source
  may write to its argument object is embedded as a function returning a pair
  `(result, caller's table after the call)`.  Operations that only read the
  argument or write to a fresh `.copy()` pass the argument through unchanged
  in the second component, which is exactly pandas' documented behaviour for
  `DataFrame.copy`, `DataFrame.replace` (without `inplace`) and column
  assignment on a copy.
* Python exceptions are embedded with `Except PyError`.
* The filesystem is abstracted as a map from path strings to optional file
  contents (a list of text lines); `pd.read_csv` is modelled with its default
  `header='infer'` semantics for a call without `names`: the first line of the
  file supplies the column names and the remaining lines are the data rows.
  Field quoting and per-column dtype inference are not modelled (cells are
  kept as raw strings by the loader); no claim below depends on them.
-/

/-- A single cell of a table: missing (pandas `NaN`), a string, or a number. -/
inductive Cell where
  | na : Cell
  | str : String → Cell
  | num : Rat → Cell
deriving DecidableEq, Repr

/-- A pandas `DataFrame`: ordered column names, row index labels, and rows. -/
structure Table where
  cols : List String
  index : List Nat
  rows : List (List Cell)
deriving DecidableEq, Repr

/-- Python exceptions raised by the pipeline. -/
inductive PyError where
  | valueError : String → PyError
  | keyError : String → PyError
  | typeError : PyError
  | emptyDataError : PyError
  | fileNotFoundError : String → PyError
deriving DecidableEq, Repr

deriving instance DecidableEq for Except

/-- Position of a column name in a column list (first match), as used by
pandas label indexing on tables with unique column names. -/
def col_index : List String → String → Nat
  | [], _ => 0
  | c :: cs, n => if c = n then 0 else col_index cs n + 1

/-- The cells of column `cname` of a table, row by row (`df[cname]`);
`none` where a row is too short to have that position. -/
def getColumn (t : Table) (cname : String) : List (Option Cell) :=
  t.rows.map (fun r => r[col_index t.cols cname]?)

/-- `df_copy[cname] = v` for a scalar `v`: overwrite the column if present,
otherwise append it on the right, broadcast to every row. -/
def set_const_column (t : Table) (cname : String) (v : Cell) : Table :=
  if t.cols.contains cname then
    { t with rows := t.rows.map (fun r => r.set (col_index t.cols cname) v) }
  else
    { cols := t.cols ++ [cname], index := t.index,
      rows := t.rows.map (fun r => r ++ [v]) }

/-- `dataframe.replace("?", np.nan)` acts cell-wise. -/
def replace_question_mark (c : Cell) : Cell :=
  if c = Cell.str "?" then Cell.na else c

/-- `convert_question_mark_to_nan` (src/utils/data_loading.py:14-25):
`dataframe.replace("?", np.nan)` over the whole table.  `replace` returns a
new object, so the caller's table (second component) is unchanged. -/
def convert_question_mark_to_nan (dataframe : Table) : Table × Table :=
  ({ dataframe with rows := dataframe.rows.map (List.map replace_question_mark) },
   dataframe)

/-- `create_file_path` (src/utils/data_loading.py:28-43).  The parameter
`pfx` embeds the source's file-prefix argument. -/
def create_file_path (filename : String) (directory : String := "data")
    (pfx : String := "processed") : String :=
  "./" ++ directory ++ "/" ++ pfx ++ "." ++ filename

/-- `pd.read_csv(filepath, sep=seperator)` on the lines of one file; each
line is modelled already split into its fields (the textual splitting on the
separator is abstracted away; no claim depends on it).  With the default
header inference of a call without `names`: an empty file raises
`EmptyDataError`; otherwise the FIRST line is consumed as the column names
and only the remaining lines become data rows, indexed `0..n-1`. -/
def read_csv (lines : List (List String)) : Except PyError Table :=
  match lines with
  | [] => Except.error PyError.emptyDataError
  | hdr :: rest =>
      Except.ok
        { cols := hdr,
          index := List.range rest.length,
          rows := rest.map (fun l => l.map Cell.str) }

/-- `load_datasets` (src/utils/data_loading.py:45-64), over an abstract
filesystem `fs` mapping a path to the field-split lines of the file there.
Files are read sequentially; the first failure propagates (so the warning
print at the end is not reached).  The boolean records whether the
"No dataframe was loaded" warning was printed, which happens exactly when
the loop finishes with an empty list. -/
def load_datasets (fs : String → Option (List (List String)))
    (filepaths : List String) : Except PyError (List Table) × Bool :=
  match filepaths.mapM (fun p =>
      match fs p with
      | none => Except.error (PyError.fileNotFoundError p)
      | some lines => read_csv lines) with
  | Except.error e => (Except.error e, false)
  | Except.ok dfs => (Except.ok dfs, dfs.isEmpty)

/-- `add_dataset_identifier` (src/utils/data_loading.py:66-89).  The length
check runs before any table is touched; on success each table is `.copy()`d
and the constant identifier column is set on the copy, so the caller's list
(second component) is unchanged in every case. -/
def add_dataset_identifier (dataframes : List Table) (dataset_names : List String)
    (column_name : String := "Dataset") :
    Except PyError (List Table) × List Table :=
  if dataframes.length ≠ dataset_names.length then
    (Except.error (PyError.valueError
        "Number of dataframes must match number of dataset names"), dataframes)
  else
    (Except.ok ((dataframes.zip dataset_names).map
        (fun p => set_const_column p.1 column_name (Cell.str p.2))), dataframes)

/-- The `ValueError` message of `modify_column_names`
(src/utils/data_loading.py:105-108); it names both counts. -/
def column_mismatch_msg (ncols nnames : Nat) : String :=
  "Column count mismatch: DataFrame has " ++ toString ncols ++
    " columns, but " ++ toString nnames ++ " names provided."

/-- `modify_column_names` (src/utils/data_loading.py:92-118).  On a count
mismatch it raises before touching anything; with `inplace=True` it assigns
`dataframe.columns` on the caller's object (second component becomes the
renamed table); with `inplace=False` it renames a `.copy()`, leaving the
caller's table unchanged. -/
def modify_column_names (dataframe : Table) (col_names : List String)
    (inplace : Bool := false) : Except PyError Table × Table :=
  if dataframe.cols.length ≠ col_names.length then
    (Except.error (PyError.valueError
        (column_mismatch_msg dataframe.cols.length col_names.length)), dataframe)
  else if inplace then
    (Except.ok { dataframe with cols := col_names },
     { dataframe with cols := col_names })
  else
    (Except.ok { dataframe with cols := col_names }, dataframe)

/-- `combine_datasets` (src/utils/data_loading.py:121-135): `pd.concat` of
the list.  `pd.concat([])` raises `ValueError("No objects to concatenate")`.
Modelled for lists of tables sharing one column list (which is what the
pipeline produces); cross-schema column alignment is not modelled since no
claim exercises it.  With `reset_index = true` (`ignore_index=True`) the
result gets the fresh contiguous index `0..n-1`. -/
def combine_datasets (dataframes : List Table) (reset_index : Bool := true) :
    Except PyError Table :=
  match dataframes with
  | [] => Except.error (PyError.valueError "No objects to concatenate")
  | t :: _ =>
      let rows := (dataframes.map Table.rows).flatten
      Except.ok
        { cols := t.cols,
          index := if reset_index then List.range rows.length
                   else (dataframes.map Table.index).flatten,
          rows := rows }

/-- The fixed plausible-range table of `apply_domain_cleaning`
(src/utils/data_loading.py:138-145): column name, min, max. -/
def range_checks : List (String × Rat × Rat) :=
  [("Age", 0, 120), ("Rest BP", 80, 250), ("Chol", 50, 700),
   ("Max HR", 60, 220), ("Oldpeak", 0, 10)]

/-- Whether the pandas elementwise ordering comparison of column `cname`
against a number raises: an object-dtype column raises `TypeError` as soon
as it holds a string cell (`str` against a number is unordered in Python),
while missing values (float `NaN`) and numbers compare without error. -/
def column_has_string_cell (t : Table) (cname : String) : Bool :=
  (getColumn t cname).any (fun oc =>
    match oc with
    | some (Cell.str _) => true
    | _ => false)

/-- The loop of `apply_domain_cleaning` (src/utils/data_loading.py:147-149),
iterating `range_checks` in insertion order.  Each iteration evaluates
`out_of_range = (df_copy[col] < min_val) | (df_copy[col] > max_val) & df_copy[col].notnull()`
and discards it — a dead computation — so only its errors are observable:
indexing a missing column raises `KeyError` (before any comparison), and
the `<` comparison on a present column raises `TypeError` if that column
holds a string cell; otherwise the mask computes and the loop moves on. -/
def domain_cleaning_loop (t : Table) :
    List (String × Rat × Rat) → Except PyError Unit
  | [] => Except.ok ()
  | rc :: rest =>
      if t.cols.contains rc.1 = false then
        Except.error (PyError.keyError rc.1)
      else if column_has_string_cell t rc.1 then
        Except.error PyError.typeError
      else
        domain_cleaning_loop t rest

/-- `apply_domain_cleaning` (src/utils/data_loading.py:137-150): runs the
dead-mask loop over `range_checks`, propagating its `KeyError`/`TypeError`
if any, and otherwise returns the unmodified copy.  The caller's table
(second component) is never written on any path. -/
def apply_domain_cleaning (dataframe : Table) : Except PyError Table × Table :=
  match domain_cleaning_loop dataframe range_checks with
  | Except.error e => (Except.error e, dataframe)
  | Except.ok _ => (Except.ok dataframe, dataframe)

/-- `modify_datataset` (src/utils/data_loading.py:153-167): copy, rename
(default `inplace=False`), sentinel conversion, domain cleaning. -/
def modify_datataset (dataframe : Table) (column_names : List String) :
    Except PyError Table := do
  let df_copy := dataframe
  let m1 ← (modify_column_names df_copy column_names false).1
  let m2 := (convert_question_mark_to_nan m1).1
  let m3 ← (apply_domain_cleaning m2).1
  pure m3

/-- `prepare_cvd_datasets` (src/utils/data_loading.py:169-199), over an
abstract filesystem.  Note that, exactly as in the source, the
`dataset_names` parameter is never used: no identifier tagging happens. -/
def prepare_cvd_datasets (fs : String → Option (List (List String)))
    (files dataset_names column_names : List String)
    (directory : String := "data") (pfx : String := "processed") :
    Except PyError (List Table × Table) := do
  let filepaths := files.map (fun f => create_file_path f directory pfx)
  let dfs ← (load_datasets fs filepaths).1
  let dfs2 ← dfs.mapM (fun df => modify_datataset df column_names)
  let df_combined ← combine_datasets dfs2 true
  pure (dfs2, df_combined)

namespace Helpers

/-- `modify_column_names` (src/helpers.py:20-27), the second, divergent
implementation: on a count mismatch it only prints a warning and returns the
dataframe UNCHANGED; otherwise it assigns `dataframe.columns = col_names`
directly on the caller's object (no copy), so the caller's table (second
component) is the renamed table. -/
def modify_column_names (dataframe : Table) (col_names : List String) :
    Table × Table :=
  if dataframe.cols.length ≠ col_names.length then
    (dataframe, dataframe)
  else
    ({ dataframe with cols := col_names }, { dataframe with cols := col_names })

end Helpers

/-- The spec-level operation `tag_and_combine(tables, names)`:
`add_dataset_identifier` followed by `combine_datasets` with the default
fresh index, returning the tagged tables and the combined table. -/
def tag_and_combine (tables : List Table) (names : List String) :
    Except PyError (List Table × Table) :=
  match (add_dataset_identifier tables names "Dataset").1 with
  | Except.error e => Except.error e
  | Except.ok tagged =>
      match combine_datasets tagged true with
      | Except.error e => Except.error e
      | Except.ok combined => Except.ok (tagged, combined)

/-- Spec-side definition, modelled from the spec's words for comparison with
the code: the number of non-missing cells of column `cname` whose numeric
value lies strictly outside `[lo, hi]`. -/
def spec_out_of_range_count (t : Table) (cname : String) (lo hi : Rat) : Nat :=
  (getColumn t cname).countP (fun oc =>
    match oc with
    | some (Cell.num v) => decide (v < lo) || decide (hi < v)
    | _ => false)

/-- The shape a table takes when a fresh constant identifier column is set
on it: source columns plus the identifier name, every row extended on the
right with the identifier cell (proof-side abbreviation). -/
def tagged_table_shape (c : List String) (p : Table × String) : Table :=
  ⟨c ++ ["Dataset"], p.1.index, p.1.rows.map (fun r => r ++ [Cell.str p.2])⟩

/-! ## Concrete inputs used by the counterexamples and witnesses -/

/-- A one-row table with all five range-checked columns and an implausible
Age of 300 (outside [0,120]). -/
def c1_table : Table :=
  { cols := ["Age", "Rest BP", "Chol", "Max HR", "Oldpeak"],
    index := [0],
    rows := [[Cell.num 300, Cell.num 120, Cell.num 200, Cell.num 150, Cell.num 1]] }

/-- A filesystem holding the spec's four synthetic files: header line
`A,B` followed by two data lines, with the sentinel `?` in one cell. -/
def c2_fs : String → Option (List (List String)) := fun p =>
  if p = "./data/processed.f1" then some [["A","B"], ["1","?"], ["2","3"]]
  else if p = "./data/processed.f2" then some [["A","B"], ["4","5"], ["6","7"]]
  else if p = "./data/processed.f3" then some [["A","B"], ["8","9"], ["10","11"]]
  else if p = "./data/processed.f4" then some [["A","B"], ["12","13"], ["14","15"]]
  else none

/-- A one-column table, to be renamed with a two-name list. -/
def c3_table : Table := ⟨["A"], [0], [[Cell.str "x"]]⟩

/-- A two-column table whose columns a rename will overwrite. -/
def c4_table : Table := ⟨["A", "B"], [0], [[Cell.str "x", Cell.str "y"]]⟩

/-- Two tables with the identical column list `["A"]`, of 2 and 1 rows. -/
def c5_dfs : List Table :=
  [⟨["A"], [0, 1], [[Cell.str "x"], [Cell.str "y"]]⟩,
   ⟨["A"], [0], [[Cell.str "z"]]⟩]

/-- A table holding the sentinel `?` next to an ordinary value. -/
def c7_table : Table := ⟨["A", "B"], [0], [[Cell.str "?", Cell.num 5]]⟩

/-- A two-row, two-column numeric table. -/
def c8_table : Table :=
  ⟨["A", "B"], [5, 6], [[Cell.num 1, Cell.num 2], [Cell.num 3, Cell.num 4]]⟩

/-- A single table, to be tagged with an empty name list. -/
def c9_table : Table := ⟨["A"], [0], [[Cell.str "x"]]⟩

/-- A filesystem with no files at all. -/
def c9_fs : String → Option (List (List String)) := fun _ => none

/-- A table lacking every range-checked column. -/
def c10_table : Table := ⟨["C1"], [0], [[Cell.str "x"]]⟩

/-- A table that HAS the first range-checked column `Age` — holding a
string cell, as any column keeps after a `?` was sentinel-converted — but
LACKS the later range-checked column `Rest BP`. -/
def c10_str_table : Table := ⟨["Age"], [0], [[Cell.str "x"]]⟩

/-! ## Helper lemmas -/

/-- Replacing the sentinel is idempotent cell-wise. -/
theorem replace_question_mark_idem (c : Cell) :
    replace_question_mark (replace_question_mark c) = replace_question_mark c := by
  by_cases h : c = Cell.str "?" <;> simp [replace_question_mark, h]

/-- Position of a fresh name appended on the right. -/
theorem col_index_append_self (l : List String) (a : String)
    (h : l.contains a = false) : col_index (l ++ [a]) a = l.length := by
  induction l with
  | nil => simp [col_index]
  | cons b bs ih =>
      simp only [List.contains_cons, Bool.or_eq_false_iff] at h
      have hba : ¬ b = a := by
        intro hh
        subst hh
        simp at h
      simp [col_index, hba, ih h.2]

/-- Setting a fresh constant column appends it on the right of every row. -/
theorem set_const_column_fresh (t : Table) (cname : String) (v : Cell)
    (h : t.cols.contains cname = false) :
    set_const_column t cname v =
      ⟨t.cols ++ [cname], t.index, t.rows.map (fun r => r ++ [v])⟩ := by
  have h2 : cname ∉ t.cols := by simpa using h
  simp [set_const_column, h2]

/-- Summing row counts through a zip of equal length recovers the sum over
the tables alone. -/
theorem zip_rows_length_sum (dfs : List Table) (names : List String)
    (h : dfs.length = names.length) :
    ((dfs.zip names).map (fun p => p.1.rows.length)).sum =
      (dfs.map (fun t => t.rows.length)).sum := by
  induction dfs generalizing names with
  | nil => simp
  | cons d ds ih =>
      cases names with
      | nil => simp at h
      | cons n ns =>
          simp only [List.zip_cons_cons, List.map_cons, List.sum_cons]
          rw [ih ns (by simpa using h)]

/-- The per-table replicated identifier cells, re-indexed from the zip of
tables and names to the zip of names and row counts. -/
theorem zip_replicate_swap (dfs : List Table) (names : List String)
    (h : dfs.length = names.length) :
    ((dfs.zip names).map
        (fun p => List.replicate p.1.rows.length (some (Cell.str p.2)))) =
      ((names.zip (dfs.map (fun t => t.rows.length))).map
        (fun p => List.replicate p.2 (some (Cell.str p.1)))) := by
  induction dfs generalizing names with
  | nil => simp
  | cons d ds ih =>
      cases names with
      | nil => simp at h
      | cons n ns =>
          simp only [List.zip_cons_cons, List.map_cons]
          rw [ih ns (by simpa using h)]

/-! ## Claim theorems -/

/-- C1: the claim demands that domain-range flagging have an observable
effect whose per-column flagged count equals the number of non-missing
values strictly outside the configured range.  The code is a no-op: on a
table whose Age value 300 lies outside [0,120] (spec-side out-of-range count
1), `apply_domain_cleaning` returns the table completely unchanged — no
indicator column, no filtering, no effect at all. -/
theorem c1_domain_flagging_is_noop :
    (apply_domain_cleaning c1_table).1 = Except.ok c1_table ∧
      spec_out_of_range_count c1_table "Age" 0 120 = 1 := by
  exact ⟨rfl, by decide⟩

/-- C2: on the spec's end-to-end scenario (four files of a header line plus
two data rows with columns A,B and a `?` cell, dataset names X,Y,Z,W, rename
to C1,C2) `prepare_cvd_datasets` does not return an 8-row combined table
with a `Dataset` column: it raises `KeyError "Age"` inside
`apply_domain_cleaning`, and the `dataset_names` argument has no influence
whatsoever on the result (it is never used, so no tagging can occur). -/
theorem c2_prepare_raises_keyerror_and_ignores_names :
    prepare_cvd_datasets c2_fs ["f1", "f2", "f3", "f4"] ["X", "Y", "Z", "W"]
        ["C1", "C2"] "data" "processed" =
      Except.error (PyError.keyError "Age") ∧
    prepare_cvd_datasets c2_fs ["f1", "f2", "f3", "f4"] ["P", "Q", "R", "S"]
        ["C1", "C2"] "data" "processed" =
      prepare_cvd_datasets c2_fs ["f1", "f2", "f3", "f4"] ["X", "Y", "Z", "W"]
        ["C1", "C2"] "data" "processed" := by
  exact ⟨rfl, rfl⟩

/-- C3 counterexample: the helpers variant of the rename
(src/helpers.py:20-27), applied to a 1-column table with a 2-name list, does
NOT fail: it silently returns the caller's table unchanged, contradicting
the claim that every count-mismatched rename fails with a Shape Mismatch
Error. -/
theorem c3_counterexample_silent_passthrough :
    c3_table.cols.length = 1 ∧ (1 : Nat) ≠ 2 ∧
      Helpers.modify_column_names c3_table ["C1", "C2"] = (c3_table, c3_table) := by
  exact ⟨rfl, by decide, rfl⟩

/-- C3 amended: on a count mismatch, the data_loading implementation of the
rename fails with a `ValueError` naming both counts (for either value of
`inplace`), while the helpers implementation silently returns the caller's
table unchanged after printing a warning. -/
theorem c3_rename_mismatch_two_variants (t : Table) (names : List String)
    (inplace : Bool) (h : t.cols.length ≠ names.length) :
    (modify_column_names t names inplace).1 =
      Except.error (PyError.valueError
        (column_mismatch_msg t.cols.length names.length)) ∧
      Helpers.modify_column_names t names = (t, t) := by
  constructor
  · simp [modify_column_names, h]
  · simp [Helpers.modify_column_names, h]

/-- C3 witness: the amended behaviour at the concrete 1-column table. -/
theorem c3_rename_mismatch_two_variants_witness :
    (modify_column_names c3_table ["C1", "C2"] false).1 =
      Except.error (PyError.valueError (column_mismatch_msg 1 2)) ∧
      Helpers.modify_column_names c3_table ["C1", "C2"] = (c3_table, c3_table) :=
  c3_rename_mismatch_two_variants c3_table ["C1", "C2"] false (by decide)

/-- C4 counterexample: the helpers rename (src/helpers.py:20-27) assigns
`dataframe.columns = col_names` directly on the caller's object, so after a
successful call the caller's original table has changed — the Normalizer is
not uniformly copy-on-write. -/
theorem c4_counterexample_helpers_rename_mutates :
    (Helpers.modify_column_names c4_table ["C1", "C2"]).2 ≠ c4_table := by
  decide

/-- C4 amended: sentinel conversion, domain-range flagging, the
data_loading rename with `inplace=False`, and identifier tagging all leave
the caller's tables unchanged (second components of the embeddings); only
the helpers rename (and the data_loading rename with `inplace=True`) writes
to the caller's table. -/
theorem c4_copy_on_write_operations (t : Table) (names : List String)
    (dfs : List Table) (dnames : List String) :
    (convert_question_mark_to_nan t).2 = t ∧
      (apply_domain_cleaning t).2 = t ∧
      (modify_column_names t names false).2 = t ∧
      (add_dataset_identifier dfs dnames "Dataset").2 = dfs := by
  refine ⟨rfl, ?_, ?_, ?_⟩
  · cases h : domain_cleaning_loop t range_checks <;> simp [apply_domain_cleaning, h]
  · by_cases h : t.cols.length = names.length <;> simp [modify_column_names, h]
  · by_cases h : dfs.length = dnames.length <;> simp [add_dataset_identifier, h]

/-- C6 counterexample: a 2-line file (one header line, one data line) loads
into a 1-row table — the loaded row count is not the file's line count, and
the first line becomes the column names rather than a data row. -/
theorem c6_counterexample_header_consumed :
    read_csv [["A", "B"], ["1", "2"]] =
      Except.ok ⟨["A", "B"], [0], [[Cell.str "1", Cell.str "2"]]⟩ ∧
      ([["A", "B"], ["1", "2"]] : List (List String)).length = 2 ∧ (1 : Nat) ≠ 2 := by
  exact ⟨rfl, rfl, by decide⟩

/-- C6 amended: the Loader interprets the first line of every file as a
header: a successfully loaded table's row count is the file's line count
minus one, its column names are the first line, its rows are exactly the
remaining lines, and its index is `0..n-1`. -/
theorem c6_loader_consumes_first_line_as_header (lines : List (List String))
    (t : Table) (h : read_csv lines = Except.ok t) :
    t.rows.length + 1 = lines.length ∧
      ∃ hd rest, lines = hd :: rest ∧ t.cols = hd ∧
        t.rows = rest.map (fun l => l.map Cell.str) ∧
        t.index = List.range rest.length := by
  cases lines with
  | nil => exact absurd h (by simp [read_csv])
  | cons hd rest =>
      simp only [read_csv, Except.ok.injEq] at h
      subst h
      refine ⟨by simp, hd, rest, rfl, rfl, rfl, rfl⟩

/-- C6 witness: the amended behaviour at a concrete 3-line file. -/
theorem c6_loader_consumes_first_line_as_header_witness :
    (⟨["A", "B"], [0, 1],
        [[Cell.str "1", Cell.str "2"], [Cell.str "3", Cell.str "4"]]⟩ : Table).rows.length + 1 =
      ([["A", "B"], ["1", "2"], ["3", "4"]] : List (List String)).length ∧
      ∃ hd rest,
        ([["A", "B"], ["1", "2"], ["3", "4"]] : List (List String)) = hd :: rest ∧
        (⟨["A", "B"], [0, 1],
          [[Cell.str "1", Cell.str "2"], [Cell.str "3", Cell.str "4"]]⟩ : Table).cols = hd ∧
        (⟨["A", "B"], [0, 1],
          [[Cell.str "1", Cell.str "2"], [Cell.str "3", Cell.str "4"]]⟩ : Table).rows =
          rest.map (fun l => l.map Cell.str) ∧
        (⟨["A", "B"], [0, 1],
          [[Cell.str "1", Cell.str "2"], [Cell.str "3", Cell.str "4"]]⟩ : Table).index =
          List.range rest.length :=
  c6_loader_consumes_first_line_as_header [["A", "B"], ["1", "2"], ["3", "4"]] _ rfl

/-- C7: sentinel conversion is idempotent, keeps the column list, and maps
every cell of every column uniformly: a `?` cell becomes the missing marker
and every other cell is unchanged. -/
theorem c7_sentinel_conversion_idempotent_and_total (t : Table) :
    (convert_question_mark_to_nan (convert_question_mark_to_nan t).1).1 =
      (convert_question_mark_to_nan t).1 ∧
      ((convert_question_mark_to_nan t).1).cols = t.cols ∧
      ∀ (i j : Nat) (c : Cell), (t.rows[i]?.bind fun r => r[j]?) = some c →
        (((convert_question_mark_to_nan t).1).rows[i]?.bind fun r => r[j]?) =
          some (if c = Cell.str "?" then Cell.na else c) := by
  refine ⟨?_, rfl, ?_⟩
  · simp only [convert_question_mark_to_nan, List.map_map]
    congr 1
    apply List.map_congr_left
    intro r _
    simp only [Function.comp_apply, List.map_map]
    apply List.map_congr_left
    intro c _
    exact replace_question_mark_idem c
  · intro i j c h
    match hr : t.rows[i]? with
    | none => simp [hr] at h
    | some r =>
        simp only [hr] at h
        simp only [Option.bind] at h
        simp only [convert_question_mark_to_nan, List.getElem?_map, hr]
        simp [h, replace_question_mark]

/-- C7 witness: the conversion at a concrete table holding a `?` cell. -/
theorem c7_sentinel_conversion_witness :
    (convert_question_mark_to_nan (convert_question_mark_to_nan c7_table).1).1 =
      (convert_question_mark_to_nan c7_table).1 ∧
      ((convert_question_mark_to_nan c7_table).1).cols = c7_table.cols ∧
      ∀ (i j : Nat) (c : Cell), (c7_table.rows[i]?.bind fun r => r[j]?) = some c →
        (((convert_question_mark_to_nan c7_table).1).rows[i]?.bind fun r => r[j]?) =
          some (if c = Cell.str "?" then Cell.na else c) :=
  c7_sentinel_conversion_idempotent_and_total c7_table

/-- C8: a rename whose name list matches the column count succeeds and
returns a table whose column names are exactly the given list, in order,
with the rows (hence the row count and row order) and the index unchanged,
for either value of `inplace`. -/
theorem c8_rename_success_shape (t : Table) (names : List String)
    (inplace : Bool) (h : t.cols.length = names.length) :
    (modify_column_names t names inplace).1 =
      Except.ok ⟨names, t.index, t.rows⟩ := by
  cases inplace <;> simp [modify_column_names, h]

/-- C8 witness: the successful rename at a concrete 2x2 table. -/
theorem c8_rename_success_shape_witness :
    (modify_column_names c8_table ["C1", "C2"] false).1 =
      Except.ok ⟨["C1", "C2"], c8_table.index, c8_table.rows⟩ :=
  c8_rename_success_shape c8_table ["C1", "C2"] false (by decide)

/-- C9: identifier tagging with mismatched counts always fails with the
Count Mismatch `ValueError`, leaving the caller's tables untouched (second
component), while loading an empty path list does not fail: it returns the
empty table list together with the printed non-fatal warning. -/
theorem c9_tagging_mismatch_fails_empty_load_soft :
    (∀ (dfs : List Table) (names : List String) (cname : String),
        dfs.length ≠ names.length →
        add_dataset_identifier dfs names cname =
          (Except.error (PyError.valueError
            "Number of dataframes must match number of dataset names"), dfs)) ∧
      ∀ fs : String → Option (List (List String)),
        load_datasets fs [] = (Except.ok [], true) := by
  constructor
  · intro dfs names cname h
    simp [add_dataset_identifier, h]
  · intro fs
    rfl

/-- C9 witness: one table against zero names, and the empty filesystem. -/
theorem c9_tagging_mismatch_fails_empty_load_soft_witness :
    add_dataset_identifier [c9_table] [] "Dataset" =
      (Except.error (PyError.valueError
        "Number of dataframes must match number of dataset names"), [c9_table]) ∧
      load_datasets c9_fs [] = (Except.ok [], true) :=
  ⟨c9_tagging_mismatch_fails_empty_load_soft.1 [c9_table] [] "Dataset" (by decide),
   c9_tagging_mismatch_fails_empty_load_soft.2 c9_fs⟩

/-- C10 counterexample: on a table whose present `Age` column holds a
string cell and which lacks the range-checked column `Rest BP`, the
comparison `df_copy[Age] < 0` raises `TypeError` before the loop ever
reaches the missing column, so no `KeyError` is raised — the claim's
universal missing-column-`KeyError` conclusion fails here. -/
theorem c10_counterexample_typeerror_preempts_keyerror :
    c10_str_table.cols.contains "Rest BP" = false ∧
      "Rest BP" ∈ range_checks.map Prod.fst ∧
      (apply_domain_cleaning c10_str_table).1 = Except.error PyError.typeError ∧
      ∀ c2, (apply_domain_cleaning c10_str_table).1 ≠
        Except.error (PyError.keyError c2) := by
  refine ⟨rfl, by decide, rfl, ?_⟩
  intro c2 h
  have h3 : (Except.error PyError.typeError : Except PyError Table) =
      Except.error (PyError.keyError c2) := h
  simp at h3

/-- Walking any suffix of the range checks that still contains a column
absent from the table, the loop ends in an error: `KeyError` at the first
missing range-checked column unless a present, string-valued range-checked
column raises `TypeError` first. -/
theorem domain_cleaning_loop_error (t : Table)
    (l : List (String × Rat × Rat)) (c : String)
    (hmem : c ∈ l.map Prod.fst) (habs : t.cols.contains c = false) :
    (∃ c2, domain_cleaning_loop t l = Except.error (PyError.keyError c2) ∧
        c2 ∈ l.map Prod.fst ∧ t.cols.contains c2 = false) ∨
      (domain_cleaning_loop t l = Except.error PyError.typeError ∧
        ∃ c3, c3 ∈ l.map Prod.fst ∧ t.cols.contains c3 = true ∧
          column_has_string_cell t c3 = true) := by
  induction l with
  | nil => simp at hmem
  | cons rc rest ih =>
      by_cases h1 : t.cols.contains rc.1 = false
      · have hout : rc.1 ∉ t.cols := by simpa using h1
        left
        exact ⟨rc.1, by simp [domain_cleaning_loop, hout], by simp, h1⟩
      · have h1t : t.cols.contains rc.1 = true := by
          cases hh : t.cols.contains rc.1 with
          | false => exact absurd hh h1
          | true => rfl
        have hin : rc.1 ∈ t.cols := by simpa using h1t
        by_cases h2 : column_has_string_cell t rc.1 = true
        · right
          refine ⟨by simp [domain_cleaning_loop, hin, h2], rc.1, by simp, h1t, h2⟩
        · have h2f : column_has_string_cell t rc.1 = false := by
            cases hh : column_has_string_cell t rc.1 with
            | false => rfl
            | true => exact absurd hh h2
          have hloop : domain_cleaning_loop t (rc :: rest) =
              domain_cleaning_loop t rest := by
            simp [domain_cleaning_loop, hin, h2f]
          have hc : c ∈ rest.map Prod.fst := by
            simp only [List.map_cons, List.mem_cons] at hmem
            rcases hmem with h | h
            · subst h
              rw [h1t] at habs
              exact Bool.noConfusion habs
            · exact h
          rcases ih hc with ⟨c2, hA, hB, hC⟩ | ⟨hA, c3, hB, hC, hD⟩
          · left
            refine ⟨c2, by rw [hloop]; exact hA, ?_, hC⟩
            simp only [List.map_cons, List.mem_cons]
            exact Or.inr hB
          · right
            refine ⟨by rw [hloop]; exact hA, c3, ?_, hC, hD⟩
            simp only [List.map_cons, List.mem_cons]
            exact Or.inr hB

/-- C10 amended: a table lacking one of the five range-checked columns
never gets a result table back — the loop ends in an error — but the error
is a `KeyError` at the first missing range-checked column only if no
earlier present range-checked column holds a string cell; such a column
makes the comparison raise `TypeError` first instead. -/
theorem c10_missing_range_column_never_returns (t : Table) (c : String)
    (hmem : c ∈ range_checks.map Prod.fst)
    (habs : t.cols.contains c = false) :
    (∃ c2, (apply_domain_cleaning t).1 = Except.error (PyError.keyError c2) ∧
        c2 ∈ range_checks.map Prod.fst ∧ t.cols.contains c2 = false) ∨
      ((apply_domain_cleaning t).1 = Except.error PyError.typeError ∧
        ∃ c3, c3 ∈ range_checks.map Prod.fst ∧ t.cols.contains c3 = true ∧
          column_has_string_cell t c3 = true) := by
  rcases domain_cleaning_loop_error t range_checks c hmem habs with
    ⟨c2, hA, hB, hC⟩ | ⟨hA, c3, hB, hC, hD⟩
  · left
    exact ⟨c2, by simp [apply_domain_cleaning, hA], hB, hC⟩
  · right
    exact ⟨by simp [apply_domain_cleaning, hA], c3, hB, hC, hD⟩

/-- C10 witness: a table whose only column is `C1` lacks `Age`. -/
theorem c10_missing_range_column_never_returns_witness :
    (∃ c2, (apply_domain_cleaning c10_table).1 =
        Except.error (PyError.keyError c2) ∧
        c2 ∈ range_checks.map Prod.fst ∧ c10_table.cols.contains c2 = false) ∨
      ((apply_domain_cleaning c10_table).1 = Except.error PyError.typeError ∧
        ∃ c3, c3 ∈ range_checks.map Prod.fst ∧
          c10_table.cols.contains c3 = true ∧
          column_has_string_cell c10_table c3 = true) :=
  c10_missing_range_column_never_returns c10_table "Age" (by decide) (by decide)

/-- C5 counterexample: with zero tables and zero names (equal counts),
`tag_and_combine` does not produce a combined table at all — `pd.concat` of
an empty list raises — so the claim fails for the empty list of tables. -/
theorem c5_counterexample_empty_input :
    tag_and_combine [] [] =
      Except.error (PyError.valueError "No objects to concatenate") ∧
      ¬ ∃ out, tag_and_combine [] [] = Except.ok out := by
  refine ⟨rfl, ?_⟩
  rintro ⟨out, h⟩
  exact Except.noConfusion h

/-- C5 amended: for every NONEMPTY list of N tables sharing one column list
(not already containing the identifier name, with well-formed row widths)
and every list of N names, `tag_and_combine` succeeds with a combined table
whose row count is the sum of the input row counts, whose index is exactly
`0..sum-1`, whose identifier column holds each name repeated exactly its
table's row count in input order, and whose rows are the tagged input rows
in input order within and across tables. -/
theorem c5_tag_and_combine_shape (dfs : List Table) (names : List String)
    (c : List String) (hne : dfs ≠ [])
    (hlen : dfs.length = names.length)
    (hcols : ∀ t ∈ dfs, t.cols = c)
    (hfresh : c.contains "Dataset" = false)
    (hwf : ∀ t ∈ dfs, ∀ r ∈ t.rows, r.length = c.length) :
    ∃ tagged combined,
      tag_and_combine dfs names = Except.ok (tagged, combined) ∧
      combined.rows.length = (dfs.map (fun t => t.rows.length)).sum ∧
      combined.index = List.range ((dfs.map (fun t => t.rows.length)).sum) ∧
      getColumn combined "Dataset" =
        ((names.zip (dfs.map (fun t => t.rows.length))).map
          (fun p => List.replicate p.2 (some (Cell.str p.1)))).flatten ∧
      combined.rows =
        ((dfs.zip names).map
          (fun p => p.1.rows.map (fun r => r ++ [Cell.str p.2]))).flatten := by
  have hmap : ((dfs.zip names).map
      (fun p => set_const_column p.1 "Dataset" (Cell.str p.2))) =
      (dfs.zip names).map (tagged_table_shape c) := by
    apply List.map_congr_left
    intro p hp
    have hp1 : p.1 ∈ dfs := (List.of_mem_zip hp).1
    have hc : p.1.cols = c := hcols p.1 hp1
    have hfr : p.1.cols.contains "Dataset" = false := by rw [hc]; exact hfresh
    rw [set_const_column_fresh p.1 "Dataset" (Cell.str p.2) hfr, hc]
    rfl
  have hcond : ¬ (dfs.length ≠ names.length) := by simp [hlen]
  have htag : (add_dataset_identifier dfs names "Dataset").1 =
      Except.ok ((dfs.zip names).map (tagged_table_shape c)) := by
    simp only [add_dataset_identifier, if_neg hcond]
    rw [hmap]
  cases dfs with
  | nil => exact absurd rfl hne
  | cons d ds =>
  cases names with
  | nil => simp at hlen
  | cons n ns =>
  have hzl : (d :: ds).zip (n :: ns) = (d, n) :: ds.zip ns := rfl
  have hcomb : combine_datasets (((d :: ds).zip (n :: ns)).map (tagged_table_shape c)) true =
      Except.ok ⟨c ++ ["Dataset"],
        List.range (((((d :: ds).zip (n :: ns)).map (tagged_table_shape c)).map
          Table.rows).flatten.length),
        ((((d :: ds).zip (n :: ns)).map (tagged_table_shape c)).map
          Table.rows).flatten⟩ := rfl
  have hlen2 : ((((d :: ds).zip (n :: ns)).map (tagged_table_shape c)).map
      Table.rows).flatten.length =
      ((d :: ds).map (fun t => t.rows.length)).sum := by
    rw [List.length_flatten, List.map_map, List.map_map]
    have heq : ((d :: ds).zip (n :: ns)).map
        ((List.length ∘ Table.rows) ∘ tagged_table_shape c) =
        ((d :: ds).zip (n :: ns)).map (fun p => p.1.rows.length) := by
      apply List.map_congr_left
      intro p _
      simp [tagged_table_shape]
    rw [heq, zip_rows_length_sum _ _ hlen]
  have hrows : ((((d :: ds).zip (n :: ns)).map (tagged_table_shape c)).map
      Table.rows).flatten =
      (((d :: ds).zip (n :: ns)).map
        (fun p => p.1.rows.map (fun r => r ++ [Cell.str p.2]))).flatten := by
    rw [List.map_map]
    rfl
  refine ⟨((d :: ds).zip (n :: ns)).map (tagged_table_shape c),
    ⟨c ++ ["Dataset"],
      List.range (((((d :: ds).zip (n :: ns)).map (tagged_table_shape c)).map
        Table.rows).flatten.length),
      ((((d :: ds).zip (n :: ns)).map (tagged_table_shape c)).map
        Table.rows).flatten⟩, ?_, ?_, ?_, ?_, ?_⟩
  · simp only [tag_and_combine, htag, hcomb]
  · exact hlen2
  · rw [hlen2]
  · show ((((d :: ds).zip (n :: ns)).map (tagged_table_shape c)).map
        Table.rows).flatten.map
        (fun r => r[col_index (c ++ ["Dataset"]) "Dataset"]?) = _
    rw [col_index_append_self c "Dataset" hfresh, List.map_flatten,
      List.map_map, List.map_map]
    have heq2 : ((d :: ds).zip (n :: ns)).map
        (((List.map (fun r => r[c.length]?)) ∘ Table.rows) ∘ tagged_table_shape c) =
        ((d :: ds).zip (n :: ns)).map
          (fun p => List.replicate p.1.rows.length (some (Cell.str p.2))) := by
      apply List.map_congr_left
      intro p hp
      have hp1 : p.1 ∈ d :: ds := (List.of_mem_zip hp).1
      show ((p.1.rows.map (fun r => r ++ [Cell.str p.2])).map
        (fun r => r[c.length]?)) = _
      rw [List.map_map]
      have heq3 : p.1.rows.map
          ((fun r => r[c.length]?) ∘ (fun r => r ++ [Cell.str p.2])) =
          p.1.rows.map (fun _ => some (Cell.str p.2)) := by
        apply List.map_congr_left
        intro r hr
        have hrlen : r.length = c.length := hwf p.1 hp1 r hr
        show (r ++ [Cell.str p.2])[c.length]? = some (Cell.str p.2)
        rw [← hrlen]
        exact List.getElem?_concat_length r (Cell.str p.2)
      rw [heq3, List.map_const']
    rw [heq2, zip_replicate_swap _ _ hlen]
  · exact hrows

/-- C5 witness: two tables with columns `["A"]`, of 2 and 1 rows, tagged
with names `X` and `Y`. -/
theorem c5_tag_and_combine_shape_witness :
    ∃ tagged combined,
      tag_and_combine c5_dfs ["X", "Y"] = Except.ok (tagged, combined) ∧
      combined.rows.length = (c5_dfs.map (fun t => t.rows.length)).sum ∧
      combined.index = List.range ((c5_dfs.map (fun t => t.rows.length)).sum) ∧
      getColumn combined "Dataset" =
        ((["X", "Y"].zip (c5_dfs.map (fun t => t.rows.length))).map
          (fun p => List.replicate p.2 (some (Cell.str p.1)))).flatten ∧
      combined.rows =
        ((c5_dfs.zip ["X", "Y"]).map
          (fun p => p.1.rows.map (fun r => r ++ [Cell.str p.2]))).flatten :=
  c5_tag_and_combine_shape c5_dfs ["X", "Y"] ["A"] (by decide) (by decide)
    (by decide) (by decide) (by decide)
